import Mathlib

/-!
# Verification of `go-test-pg` (`database.go`)

A shallow embedding of the template-database lifecycle manager from
`database.go` of the `olomix/go-test-pg` repository, together with proofs
about it.

Modelling conventions:
* Go byte strings (schema file contents) are `List Nat`, each entry a byte
  value `< 256`.
* Machine integers are modelled as `Nat` with explicit `% 2 ^ 32`
  (resp. `% 2 ^ 64`) where the Go code computes modulo the word size.
* Every database / filesystem interaction driven by the code is recorded
  as an explicit effect (`Eff`), and the outcome of each external call is
  an input of the embedding (an oracle field of an environment structure),
  so an embedded function is a pure map from the oracle outcomes to the
  effect trace it produces and the value it returns.
* `crypto/md5` is an external collaborator with a fully specified
  behaviour (RFC 1321); it is embedded as a full executable MD5
  implementation below.
-/

namespace GoTestPg

/-! ## MD5 (RFC 1321), as called via `crypto/md5` in `createTemplateDB` -/

/-- 2^32, the modulus for 32-bit words. -/
def w32 : Nat := 4294967296

/-- 32-bit modular addition. -/
def add32 (a b : Nat) : Nat := (a + b) % w32

/-- 32-bit bitwise complement (for arguments `< 2^32`). -/
def not32 (x : Nat) : Nat := Nat.xor x 4294967295

/-- 32-bit left rotation by `s` bits (for `x < 2^32`, `s ≤ 32`). -/
def rotl32 (x s : Nat) : Nat := (x % 2 ^ (32 - s)) * 2 ^ s + x / 2 ^ (32 - s)

/-- MD5 round function F. -/
def mdF (b c d : Nat) : Nat := Nat.lor (Nat.land b c) (Nat.land (not32 b) d)

/-- MD5 round function G. -/
def mdG (b c d : Nat) : Nat := Nat.lor (Nat.land b d) (Nat.land c (not32 d))

/-- MD5 round function H. -/
def mdH (b c d : Nat) : Nat := Nat.xor b (Nat.xor c d)

/-- MD5 round function I. -/
def mdI (b c d : Nat) : Nat := Nat.xor c (Nat.lor b (not32 d))

/-- The 64 MD5 sine-derived constants `K[i] = ⌊|sin (i+1)| · 2^32⌋`. -/
def mdK : List Nat :=
  [0xd76aa478, 0xe8c7b756, 0x242070db, 0xc1bdceee,
   0xf57c0faf, 0x4787c62a, 0xa8304613, 0xfd469501,
   0x698098d8, 0x8b44f7af, 0xffff5bb1, 0x895cd7be,
   0x6b901122, 0xfd987193, 0xa679438e, 0x49b40821,
   0xf61e2562, 0xc040b340, 0x265e5a51, 0xe9b6c7aa,
   0xd62f105d, 0x02441453, 0xd8a1e681, 0xe7d3fbc8,
   0x21e1cde6, 0xc33707d6, 0xf4d50d87, 0x455a14ed,
   0xa9e3e905, 0xfcefa3f8, 0x676f02d9, 0x8d2a4c8a,
   0xfffa3942, 0x8771f681, 0x6d9d6122, 0xfde5380c,
   0xa4beea44, 0x4bdecfa9, 0xf6bb4b60, 0xbebfbc70,
   0x289b7ec6, 0xeaa127fa, 0xd4ef3085, 0x04881d05,
   0xd9d4d039, 0xe6db99e5, 0x1fa27cf8, 0xc4ac5665,
   0xf4292244, 0x432aff97, 0xab9423a7, 0xfc93a039,
   0x655b59c3, 0x8f0ccc92, 0xffeff47d, 0x85845dd1,
   0x6fa87e4f, 0xfe2ce6e0, 0xa3014314, 0x4e0811a1,
   0xf7537e82, 0xbd3af235, 0x2ad7d2bb, 0xeb86d391]

/-- The 64 MD5 per-step left-rotation amounts. -/
def mdShift : List Nat :=
  [7, 12, 17, 22, 7, 12, 17, 22, 7, 12, 17, 22, 7, 12, 17, 22,
   5, 9, 14, 20, 5, 9, 14, 20, 5, 9, 14, 20, 5, 9, 14, 20,
   4, 11, 16, 23, 4, 11, 16, 23, 4, 11, 16, 23, 4, 11, 16, 23,
   6, 10, 15, 21, 6, 10, 15, 21, 6, 10, 15, 21, 6, 10, 15, 21]

/-- The four 32-bit MD5 chaining registers. -/
structure MDSt where
  a : Nat
  b : Nat
  c : Nat
  d : Nat
deriving Repr, DecidableEq

/-- One of the 64 operations of the MD5 compression function, on message
words `m` (16 words of the current block). -/
def mdStep (m : List Nat) (st : MDSt) (i : Nat) : MDSt :=
  let f :=
    if i < 16 then mdF st.b st.c st.d
    else if i < 32 then mdG st.b st.c st.d
    else if i < 48 then mdH st.b st.c st.d
    else mdI st.b st.c st.d
  let g :=
    if i < 16 then i
    else if i < 32 then (5 * i + 1) % 16
    else if i < 48 then (3 * i + 5) % 16
    else (7 * i) % 16
  let tv := (f + st.a + mdK.getD i 0 + m.getD g 0) % w32
  ⟨st.d, add32 st.b (rotl32 tv (mdShift.getD i 0)), st.b, st.c⟩

/-- The 16 little-endian 32-bit words of a 64-byte block. -/
def blockWords (blk : List Nat) : List Nat :=
  (List.range 16).map fun j =>
    blk.getD (4 * j) 0 + 256 * blk.getD (4 * j + 1) 0 +
      65536 * blk.getD (4 * j + 2) 0 + 16777216 * blk.getD (4 * j + 3) 0

/-- The MD5 compression function: process one 64-byte block. -/
def mdBlock (st : MDSt) (blk : List Nat) : MDSt :=
  let r := (List.range 64).foldl (mdStep (blockWords blk)) st
  ⟨add32 st.a r.a, add32 st.b r.b, add32 st.c r.c, add32 st.d r.d⟩

/-- Split a byte list into `n` consecutive 64-byte chunks. -/
def chunksAux : Nat → List Nat → List (List Nat)
  | 0, _ => []
  | n + 1, l => l.take 64 :: chunksAux n (l.drop 64)

/-- Split a byte list (of length a multiple of 64) into 64-byte chunks. -/
def chunks64 (l : List Nat) : List (List Nat) := chunksAux (l.length / 64) l

/-- MD5 padding: `0x80`, zeros to 56 mod 64, then the 64-bit little-endian
bit length of the message. -/
def md5Pad (msg : List Nat) : List Nat :=
  msg ++ 128 :: List.replicate ((119 - msg.length % 64) % 64) 0 ++
    (List.range 8).map (fun j => (msg.length * 8) % 2 ^ 64 / 256 ^ j % 256)

/-- The final MD5 chaining state of a message. -/
def md5St (msg : List Nat) : MDSt :=
  (chunks64 (md5Pad msg)).foldl mdBlock
    ⟨0x67452301, 0xefcdab89, 0x98badcfe, 0x10325476⟩

/-- The four little-endian bytes of (the low 32 bits of) a word. -/
def wordLE (w : Nat) : List Nat :=
  [w % 256, w / 256 % 256, w / 65536 % 256, w / 16777216 % 256]

/-- The 16 digest bytes of a chaining state. -/
def digestBytes (st : MDSt) : List Nat :=
  wordLE st.a ++ wordLE st.b ++ wordLE st.c ++ wordLE st.d

/-- `md5 msg` is the 16-byte MD5 digest of the byte string `msg`,
as produced by Go's `md5.Sum`. -/
def md5 (msg : List Nat) : List Nat := digestBytes (md5St msg)

set_option maxRecDepth 4096

example : md5 [] =
    [0xd4, 0x1d, 0x8c, 0xd9, 0x8f, 0x00, 0xb2, 0x04,
     0xe9, 0x80, 0x09, 0x98, 0xec, 0xf8, 0x42, 0x7e] := by decide

example : md5 [97, 98, 99] =
    [0x90, 0x01, 0x50, 0x98, 0x3c, 0xd2, 0x4f, 0xb0,
     0xd6, 0x96, 0x3f, 0x7d, 0x28, 0xe1, 0x7f, 0x72] := by decide

/-! ## Hex encoding (`encoding/hex.EncodeToString` in `createTemplateDB`) -/

/-- The lowercase hex digit for a nibble. -/
def hexDigit (n : Nat) : Char := "0123456789abcdef".data.getD n '0'

/-- The two hex digits of a byte. -/
def byteHex (b : Nat) : List Char := [hexDigit (b / 16), hexDigit (b % 16)]

/-- The hex characters of a byte string. -/
def hexChars (l : List Nat) : List Char := (l.map byteHex).flatten

/-- `hex.EncodeToString`: lowercase hex of a byte string. -/
def hexEncode (l : List Nat) : String := ⟨hexChars l⟩

example : hexEncode (md5 []) = "d41d8cd98f00b204e9800998ecf8427e" := by decide

/-! ## Identifier quoting

`quote` (database.go:285-287) delegates to `pgx.Identifier{name}.Sanitize()`
of the external `pgx/v4` collaborator, which for a one-part identifier
removes NUL bytes, doubles every `"` and wraps the result in `"`.
Go strings are byte strings; here names are modelled at the character
level, which is faithful for the quoting structure. -/

/-- Escape one character of an identifier (pgx `Sanitize`): a double quote
is doubled, anything else kept. -/
def escQuote (c : Char) : List Char := if c = '"' then ['"', '"'] else [c]

/-- The sanitized body of an identifier: NUL bytes removed, quotes
doubled. -/
def sanitizeChars (l : List Char) : List Char :=
  ((l.filter fun c => c ≠ '\x00').map escQuote).flatten

/-- `quote(name)` = `pgx.Identifier{name}.Sanitize()`. -/
def quote (name : String) : String :=
  ⟨'"' :: (sanitizeChars name.data ++ ['"'])⟩

/-- The query built by `createDB` (database.go:212-216):
`CREATE DATABASE <name>` with an optional `WITH TEMPLATE` clause. -/
def createDBQuery (name tmplName : String) : String :=
  "CREATE DATABASE " ++ quote name ++
    (if tmplName = "" then "" else " WITH TEMPLATE " ++ quote tmplName)

/-- The query built by `dropDB` (database.go:186). -/
def dropDBQuery (dbName : String) : String := "DROP DATABASE " ++ quote dbName

/-- `quotedIdent s = true` iff `s` is a single well-formed quoted SQL
identifier: an opening `"`, a body in which every `"` is doubled, and a
final closing `"`. -/
def innerOk : List Char → Bool
  | [] => false
  | c :: rest =>
    if c = '"' then
      match rest with
      | [] => true
      | c2 :: rest2 => if c2 = '"' then innerOk rest2 else false
    else innerOk rest

/-- See `innerOk`. -/
def quotedIdent (s : String) : Bool :=
  match s.data with
  | '"' :: rest => innerOk rest
  | _ => false

/-! ## Template identity (`createTemplateDB`, database.go:235-241) -/

/-- The template database name: the base name (default `dbtestpg` when the
`BaseName` field is empty) joined by `_` with the hex MD5 of the schema
file content, as `fmt.Sprintf("%v_%v", baseName, schemaHex)` builds it. -/
def templateName (baseName : String) (schema : List Nat) : String :=
  (if baseName = "" then "dbtestpg" else baseName) ++ "_" ++ hexEncode (md5 schema)

/-! ## Errors and effects -/

deriving instance DecidableEq for Except

/-- Error values surfaced by the embedded functions. `Nat` payloads stand
for the opaque underlying Go error values. -/
inductive Err
  | schemaFileEmpty          -- `errors.New("SchemaFile is empty")`
  | readFile (e : Nat)       -- wrapped `ioutil.ReadFile` error
  | sql (e : Nat)            -- wrapped connection / DDL / query error
deriving Repr, DecidableEq

/-- Configuration-class errors: schema source unset or unreadable. -/
def Err.isConfig : Err → Bool
  | .schemaFileEmpty => true
  | .readFile _ => true
  | .sql _ => false

/-- Observable actions of the library, in program order. -/
inductive Eff
  | existsCheck (tmpl : String)  -- `SELECT EXISTS(... WHERE datname = $1)`
  | ddl (query : String)         -- `conn.Exec` of a built DDL string
  | applySchema (tmpl : String)  -- `conn.Exec(string(schemaSql))` on the template
  | openPool (dbName : String)   -- `pgxpool.ConnectConfig` scoped to `dbName`
  | closePool                    -- `pool.Close()`
  | execFixture (i : Nat)        -- `pool.Exec` of the fixture at index `i`
  | fatalTest (msg : String)     -- `t.Fatalf` / `t.Fatal` with a message
  | fatalErr (e : Err)           -- `t.Fatal(err)` / `t.Fatalf("%+v", err)`
  | errorTest (msg : String)     -- `t.Errorf`
deriving Repr, DecidableEq

/-- The message of `t.Fatalf("unreleased connections exists: %v, can't
drop database %v", acquiredConns, dbName)` (database.go:199-202). -/
def leakMsg (acquiredConns : Int) (dbName : String) : String :=
  "unreleased connections exists: " ++ toString acquiredConns ++
    ", can't drop database " ++ dbName

/-- The message of `t.Errorf("Can't drop DB %v: %v", dbName, err)`
(database.go:207). -/
def dropFailMsg (dbName : String) (e : Nat) : String :=
  "Can't drop DB " ++ dbName ++ ": " ++ toString e

/-- The message of `t.Fatalf("can't load fixture at idx %v: %+v", i, err)`
(database.go:55-58 and 73-76). -/
def fixtureMsg (i e : Nat) : String :=
  "can't load fixture at idx " ++ toString i ++ ": " ++ toString e

/-! ## Teardown closure (`WithEmpty`, database.go:194-210)

The closure returned by `WithEmpty` reads the pool's acquired-connection
count, fails the test without dropping when it is positive, and otherwise
closes the pool, drops the clone and reports any drop error.  The count
(`pgxpool.Stat().AcquiredConns()`, an `int32`) and the outcome of the
`DROP DATABASE` (`none` = success) are oracle inputs. -/
def cleanFn (acquiredConns : Int) (dbName : String) (dropRes : Option Nat) : List Eff :=
  if 0 < acquiredConns then
    [.fatalTest (leakMsg acquiredConns dbName)]
  else
    .closePool :: .ddl (dropDBQuery dbName) ::
      (match dropRes with
       | some e => [.errorTest (dropFailMsg dbName e)]
       | none => [])

/-! ## Clone creation (`createRndDB`, database.go:114-140)

Runs after `getTmpl` has produced the template name `tmpl`.  `rndVal` is
the value of `p.rnd.Int31()`; `createRes`, `parseRes` and `connectRes`
are the outcomes of `createDB`, `pgxpool.ParseConfig` and
`pgxpool.ConnectConfig` (`none` = success).  Returns the effect trace and
the clone name when the call returns normally. -/
def createRndDB (tmpl : String) (rndVal : Nat)
    (createRes parseRes connectRes : Option Nat) : List Eff × Option String :=
  let dbName := tmpl ++ "_" ++ toString rndVal
  match createRes with
  | some e => ([.ddl (createDBQuery dbName tmpl), .fatalErr (.sql e)], none)
  | none =>
    match parseRes with
    | some e =>
      ([.ddl (createDBQuery dbName tmpl), .ddl (dropDBQuery dbName),
        .fatalErr (.sql e)], none)
    | none =>
      match connectRes with
      | some _ =>
        -- on connect failure the code drops the clone and calls `t.Fatal()`
        -- with no arguments (database.go:135-136)
        ([.ddl (createDBQuery dbName tmpl), .openPool dbName,
          .ddl (dropDBQuery dbName), .fatalTest ""], none)
      | none => ([.ddl (createDBQuery dbName tmpl), .openPool dbName], some dbName)

/-! ## Fixture loading (`WithFixtures`, database.go:45-62; the `WithSQLs`
loop at database.go:66-80 is byte-for-byte the same control flow on plain
SQL strings)

`outs` holds the outcome of `pool.Exec` for each fixture in order
(`none` = success).  On the first failure the code invokes the teardown
closure and then `t.Fatalf` with the failing index; the returned `Bool`
is `false` iff the call aborted. -/
def withFixturesAux (dbName : String) (acquiredConns : Int) (dropRes : Option Nat) :
    List (Option Nat) → Nat → List Eff × Bool
  | [], _ => ([], true)
  | none :: rest, i =>
    let r := withFixturesAux dbName acquiredConns dropRes rest (i + 1)
    (.execFixture i :: r.1, r.2)
  | some e :: _, i =>
    (.execFixture i ::
      (cleanFn acquiredConns dbName dropRes ++ [.fatalTest (fixtureMsg i e)]), false)

/-- The fixture loop of `WithFixtures` / `WithSQLs`, from index 0. -/
def withFixtures (dbName : String) (acquiredConns : Int) (dropRes : Option Nat)
    (outs : List (Option Nat)) : List Eff × Bool :=
  withFixturesAux dbName acquiredConns dropRes outs 0

/-! ## Template creation (`createTemplateDB`, database.go:227-283) -/

/-- Oracle environment for one run of `createTemplateDB`: the `Pgpool`
configuration fields and the outcome of every external call it makes.
Connection-establishment failures of `withNewConnection` are folded into
the corresponding query outcome (all are `sql`-class errors). -/
structure TmplEnv where
  schemaFile : String             -- `p.SchemaFile`
  baseName : String               -- `p.BaseName`
  readFile : Except Nat (List Nat)  -- `ioutil.ReadFile(p.SchemaFile)`
  existsRes : Except Nat Bool     -- the `SELECT EXISTS` query result
  createRes : Option Nat          -- `CREATE DATABASE` outcome (none = ok)
  applyRes : Option Nat           -- schema script outcome (none = ok)
  dropRes : Option Nat            -- cleanup `dropDB` outcome (ignored)
deriving Repr, DecidableEq

/-- `createTemplateDB` (database.go:227-283): checks the schema file name,
reads it, derives the content-addressed template name, checks whether the
template database already exists, creates it when absent, applies the
schema, and drops the half-initialized template when the schema script
fails. -/
def createTemplateDB (env : TmplEnv) : List Eff × Except Err String :=
  if env.schemaFile = "" then ([], .error .schemaFileEmpty)
  else
    match env.readFile with
    | .error e => ([], .error (.readFile e))
    | .ok schemaSql =>
      let tmpl := templateName env.baseName schemaSql
      match env.existsRes with
      | .error e => ([.existsCheck tmpl], .error (.sql e))
      | .ok true => ([.existsCheck tmpl], .ok tmpl)
      | .ok false =>
        match env.createRes with
        | some e =>
          ([.existsCheck tmpl, .ddl ("CREATE DATABASE " ++ quote tmpl)],
            .error (.sql e))
        | none =>
          match env.applyRes with
          | some e =>
            ([.existsCheck tmpl, .ddl ("CREATE DATABASE " ++ quote tmpl),
              .applySchema tmpl, .ddl (dropDBQuery tmpl)], .error (.sql e))
          | none =>
            ([.existsCheck tmpl, .ddl ("CREATE DATABASE " ++ quote tmpl),
              .applySchema tmpl], .ok tmpl)

/-! ## Sequential `getTmpl` (database.go:82-112)

The cached fields `p.err` / `p.tmpl` read and written under `p.m`. -/

/-- The mutable cached state of a `Pgpool`. -/
structure PoolSt where
  err : Option Err   -- `p.err`
  tmpl : String      -- `p.tmpl` (`""` = unset)
deriving Repr, DecidableEq

/-- What one `getTmpl` call does for the caller. -/
inductive GetRes
  | skipped            -- `t.Skip`
  | fatal (e : Err)    -- `t.Fatal(err)` / `t.Fatalf("%+v", err)`
  | ok (tmpl : String)
deriving Repr, DecidableEq

/-- One sequential `getTmpl` call on cached state `s`; `createRes` is the
result `createTemplateDB` would produce if invoked.  Returns the caller's
result, the new cached state, and whether template creation was
attempted. -/
def getTmplCall (skip : Bool) (s : PoolSt) (createRes : Except Err String) :
    GetRes × PoolSt × Bool :=
  if skip then (.skipped, s, false)
  else
    match s.err with
    | some e => (.fatal e, s, false)
    | none =>
      if s.tmpl ≠ "" then (.ok s.tmpl, s, false)
      else
        match createRes with
        | .ok tm => (.ok tm, ⟨none, tm⟩, true)
        | .error e => (.fatal e, ⟨some e, ""⟩, true)

/-- A sequence of `getTmpl` calls, one per entry of `creates`, each entry
being the result template creation would produce on that call. -/
def runGetTmplCalls (skip : Bool) (s : PoolSt) :
    List (Except Err String) → List (GetRes × Bool) × PoolSt
  | [] => ([], s)
  | c :: cs =>
    let r := getTmplCall skip s c
    let rest := runGetTmplCalls skip r.2.1 cs
    ((r.1, r.2.2) :: rest.1, rest.2)

/-! ## Concurrent `getTmpl` (database.go:82-112)

An interleaving semantics for `N` goroutines that each call `getTmpl`
once on one fresh pool, on the path where every database operation
succeeds.  The threads run the same program and carry no thread-local
state that outlives a step, so the global state only needs how many
threads sit at each program point:

* `nStart`    — before the `RLock` read of `p.err` / `p.tmpl`
  (database.go:89-92).  The read and the branch on its snapshot
  (lines 94-100) are one step: the snapshot is taken under the read
  lock and the branch depends only on it.
* `nLockWait` — read `p.tmpl == ""` and now block on `p.m.Lock()`
  (line 101).  Note the code does not re-check the cached state after
  acquiring the write lock.
* `nInCrit`   — hold the write lock and run `p.createTemplateDB()`
  (lines 102-105).  All of a thread's database operations happen here,
  and only here, so the whole critical section is one step; its
  existence check / `CREATE DATABASE` / schema apply are counted
  individually.
* `nDone`     — returned from `getTmpl`.

A read step requires the write lock to be free (`sync.RWMutex`: `RLock`
blocks while a writer holds the lock, so a reader never observes the
middle of a critical section). -/
structure TState where
  nStart : Nat
  nLockWait : Nat
  nInCrit : Nat
  nDone : Nat
  writerHeld : Bool   -- `p.m` held for writing
  tmplSet : Bool      -- `p.tmpl ≠ ""`
  dbExists : Bool     -- the template database exists on the server
  existsChecks : Nat  -- `SELECT EXISTS` queries executed so far
  creates : Nat       -- `CREATE DATABASE` statements executed so far
  applies : Nat       -- schema scripts applied so far
deriving Repr, DecidableEq

/-- One interleaving step of the concurrent `getTmpl` execution. -/
inductive TStep : TState → TState → Prop
  | readHit (s : TState) :
      0 < s.nStart → s.writerHeld = false → s.tmplSet = true →
      TStep s { s with nStart := s.nStart - 1, nDone := s.nDone + 1 }
  | readMiss (s : TState) :
      0 < s.nStart → s.writerHeld = false → s.tmplSet = false →
      TStep s { s with nStart := s.nStart - 1, nLockWait := s.nLockWait + 1 }
  | lock (s : TState) :
      0 < s.nLockWait → s.writerHeld = false →
      TStep s { s with nLockWait := s.nLockWait - 1, nInCrit := s.nInCrit + 1,
                       writerHeld := true }
  | create (s : TState) :
      0 < s.nInCrit →
      TStep s { s with nInCrit := s.nInCrit - 1, nDone := s.nDone + 1,
                       writerHeld := false, tmplSet := true, dbExists := true,
                       existsChecks := s.existsChecks + 1,
                       creates := s.creates + (if s.dbExists then 0 else 1),
                       applies := s.applies + (if s.dbExists then 0 else 1) }

/-- Reachability under interleaving steps. -/
def TReach : TState → TState → Prop := Relation.ReflTransGen TStep

/-- `N` first-time callers on one freshly constructed pool against a
server that does not have the template yet. -/
def initT (n : Nat) : TState :=
  ⟨n, 0, 0, 0, false, false, false, 0, 0, 0⟩

/-- Every caller has returned. -/
def allDoneT (s : TState) : Prop :=
  s.nStart = 0 ∧ s.nLockWait = 0 ∧ s.nInCrit = 0

/-- Inductive invariant of the concurrent `getTmpl` execution with `n`
callers. -/
def TInv (n : Nat) (s : TState) : Prop :=
  s.nStart + s.nLockWait + s.nInCrit + s.nDone = n ∧
  s.tmplSet = s.dbExists ∧
  s.creates = (if s.dbExists then 1 else 0) ∧
  s.applies = s.creates ∧
  (0 < s.nDone → s.dbExists = true) ∧
  s.creates ≤ s.existsChecks ∧
  s.existsChecks + s.nStart + s.nLockWait + s.nInCrit ≤ n

lemma tinv_init (n : Nat) : TInv n (initT n) := by
  simp [TInv, initT]

lemma tinv_step {n : Nat} {s s' : TState} (hinv : TInv n s) (hstep : TStep s s') :
    TInv n s' := by
  obtain ⟨h1, h2, h3, h4, h5, h6, h7⟩ := hinv
  cases hstep with
  | readHit hpos hw ht =>
    refine ⟨?_, h2, h3, h4, fun _ => h2.symm.trans ht, h6, ?_⟩
    · show s.nStart - 1 + s.nLockWait + s.nInCrit + (s.nDone + 1) = n
      omega
    · show s.existsChecks + (s.nStart - 1) + s.nLockWait + s.nInCrit ≤ n
      omega
  | readMiss hpos hw ht =>
    refine ⟨?_, h2, h3, h4, h5, h6, ?_⟩
    · show s.nStart - 1 + (s.nLockWait + 1) + s.nInCrit + s.nDone = n
      omega
    · show s.existsChecks + (s.nStart - 1) + (s.nLockWait + 1) + s.nInCrit ≤ n
      omega
  | lock hpos hw =>
    refine ⟨?_, h2, h3, h4, h5, h6, ?_⟩
    · show s.nStart + (s.nLockWait - 1) + (s.nInCrit + 1) + s.nDone = n
      omega
    · show s.existsChecks + s.nStart + (s.nLockWait - 1) + (s.nInCrit + 1) ≤ n
      omega
  | create hpos =>
    refine ⟨?_, rfl, ?_, ?_, fun _ => rfl, ?_, ?_⟩
    · show s.nStart + s.nLockWait + (s.nInCrit - 1) + (s.nDone + 1) = n
      omega
    · show s.creates + (if s.dbExists then 0 else 1) = (if (true : Bool) then 1 else 0)
      cases hdb : s.dbExists <;> simp [hdb] at h3 ⊢ <;> omega
    · show s.applies + (if s.dbExists then 0 else 1) =
        s.creates + (if s.dbExists then 0 else 1)
      rw [h4]
    · show s.creates + (if s.dbExists then 0 else 1) ≤ s.existsChecks + 1
      cases hdb : s.dbExists <;> simp [hdb] <;> omega
    · show s.existsChecks + 1 + s.nStart + s.nLockWait + (s.nInCrit - 1) ≤ n
      omega

lemma tinv_reach {n : Nat} {s : TState} (h : TReach (initT n) s) : TInv n s := by
  induction h with
  | refl => exact tinv_init n
  | tail _ hstep ih => exact tinv_step ih hstep

/-! ## Helper lemmas -/

lemma hexDigit_inj : ∀ a < 16, ∀ b < 16, hexDigit a = hexDigit b → a = b := by decide

lemma wordLE_mem_lt {w x : Nat} (hx : x ∈ wordLE w) : x < 256 := by
  simp only [wordLE, List.mem_cons, List.not_mem_nil, or_false] at hx
  rcases hx with h | h | h | h <;> subst h <;> exact Nat.mod_lt _ (by decide)

lemma md5_mem_lt {m : List Nat} {x : Nat} (hx : x ∈ md5 m) : x < 256 := by
  simp only [md5, digestBytes, List.mem_append] at hx
  rcases hx with ((h | h) | h) | h <;> exact wordLE_mem_lt h

lemma md5_length (m : List Nat) : (md5 m).length = 16 := by
  simp [md5, digestBytes, wordLE]

lemma hexChars_inj : ∀ l1 l2 : List Nat, (∀ b ∈ l1, b < 256) → (∀ b ∈ l2, b < 256) →
    hexChars l1 = hexChars l2 → l1 = l2 := by
  intro l1
  induction l1 with
  | nil =>
    intro l2 _ _ h
    cases l2 with
    | nil => rfl
    | cons b t => simp [hexChars, byteHex] at h
  | cons a t ih =>
    intro l2 hb1 hb2 h
    cases l2 with
    | nil => simp [hexChars, byteHex] at h
    | cons b t2 =>
      simp only [hexChars, List.map_cons, List.flatten_cons, byteHex,
        List.cons_append, List.nil_append, List.cons.injEq] at h
      obtain ⟨h1, h2, h3⟩ := h
      have ha : a < 256 := hb1 a (by simp)
      have hb : b < 256 := hb2 b (by simp)
      have e1 : a / 16 = b / 16 := hexDigit_inj _ (by omega) _ (by omega) h1
      have e2 : a % 16 = b % 16 :=
        hexDigit_inj _ (Nat.mod_lt _ (by decide)) _ (Nat.mod_lt _ (by decide)) h2
      have hab : a = b := by omega
      subst hab
      have ht : t = t2 :=
        ih t2 (fun x hx => hb1 x (List.mem_cons_of_mem _ hx))
          (fun x hx => hb2 x (List.mem_cons_of_mem _ hx)) h3
      rw [ht]

/-- A byte string read as a base-256 little-endian number. -/
def bytesVal : List Nat → Nat
  | [] => 0
  | b :: t => b + 256 * bytesVal t

lemma bytesVal_lt : ∀ l : List Nat, (∀ b ∈ l, b < 256) → bytesVal l < 256 ^ l.length := by
  intro l
  induction l with
  | nil => intro; simp [bytesVal]
  | cons b t ih =>
    intro hb
    have h1 : b < 256 := hb b (by simp)
    have h2 : bytesVal t < 256 ^ t.length := ih fun x hx => hb x (by simp [hx])
    show b + 256 * bytesVal t < 256 ^ (t.length + 1)
    rw [pow_succ]
    generalize (256 : Nat) ^ t.length = X at h2 ⊢
    omega

lemma bytesVal_inj : ∀ l1 l2 : List Nat, l1.length = l2.length →
    (∀ b ∈ l1, b < 256) → (∀ b ∈ l2, b < 256) →
    bytesVal l1 = bytesVal l2 → l1 = l2 := by
  intro l1
  induction l1 with
  | nil =>
    intro l2 hlen _ _ _
    cases l2 with
    | nil => rfl
    | cons b t => simp at hlen
  | cons a t ih =>
    intro l2 hlen hb1 hb2 h
    cases l2 with
    | nil => simp at hlen
    | cons b t2 =>
      have ha : a < 256 := hb1 a (by simp)
      have hb : b < 256 := hb2 b (by simp)
      simp only [bytesVal] at h
      have htv : bytesVal t = bytesVal t2 := by omega
      have hab : a = b := by omega
      subst hab
      have ht : t = t2 :=
        ih t2 (by simpa using hlen) (fun x hx => hb1 x (List.mem_cons_of_mem _ hx))
          (fun x hx => hb2 x (List.mem_cons_of_mem _ hx)) htv
      rw [ht]

/-- MD5 maps infinitely many byte strings into a 2^128-element digest
space, so it has collisions. -/
lemma md5_not_injective : ∃ s1 s2 : List Nat, s1 ≠ s2 ∧ md5 s1 = md5 s2 := by
  have hc : (Finset.range (256 ^ 16)).card < (Finset.range (256 ^ 16 + 1)).card := by
    simp [Finset.card_range]
  have hmaps : ∀ n ∈ Finset.range (256 ^ 16 + 1),
      bytesVal (md5 (Nat.digits 256 n)) ∈ Finset.range (256 ^ 16) := by
    intro n _
    have h := bytesVal_lt (md5 (Nat.digits 256 n)) fun _ hb => md5_mem_lt hb
    rw [md5_length] at h
    simpa [Finset.mem_range] using h
  obtain ⟨x, _, y, _, hxy, hf⟩ :=
    Finset.exists_ne_map_eq_of_card_lt_of_maps_to hc hmaps
  refine ⟨Nat.digits 256 x, Nat.digits 256 y, ?_, ?_⟩
  · intro h
    apply hxy
    have h2 := congrArg (Nat.ofDigits 256) h
    rw [Nat.ofDigits_digits, Nat.ofDigits_digits] at h2
    exact_mod_cast h2
  · exact bytesVal_inj _ _ (by rw [md5_length, md5_length])
      (fun _ hb => md5_mem_lt hb) (fun _ hb => md5_mem_lt hb) hf

lemma strData_append (a b : String) : (a ++ b).data = a.data ++ b.data := by
  cases a
  cases b
  rfl

/-- Equal template names (same base) force equal MD5 digests of the
schema contents. -/
lemma templateName_eq_digest {base : String} {s1 s2 : List Nat}
    (h : templateName base s1 = templateName base s2) : md5 s1 = md5 s2 := by
  have hd := congrArg String.data h
  simp only [templateName, strData_append] at hd
  have h2 : (hexEncode (md5 s1)).data = (hexEncode (md5 s2)).data :=
    List.append_cancel_left hd
  exact hexChars_inj _ _ (fun _ hb => md5_mem_lt hb) (fun _ hb => md5_mem_lt hb) h2

lemma quote_data (name : String) :
    (quote name).data = '"' :: (sanitizeChars name.data ++ ['"']) := rfl

lemma innerOk_escaped : ∀ l : List Char, innerOk ((l.map escQuote).flatten ++ ['"']) = true := by
  intro l
  induction l with
  | nil => rfl
  | cons c t ih =>
    by_cases hc : c = '"' <;>
      · simp only [List.map_cons, List.flatten_cons, escQuote, hc, if_true, if_false,
          List.cons_append, List.nil_append, ite_true, ite_false]
        rw [innerOk.eq_def]
        simp [hc, ih]

/-- The sanitizer always produces a well-formed quoted identifier. -/
lemma quote_quotedIdent (name : String) : quotedIdent (quote name) = true := by
  simp only [quotedIdent, quote_data, sanitizeChars]
  simp [innerOk_escaped]

/-! ## Claims -/

/-- **C2.** For every teardown invocation on a clone's pool handle: if the
outstanding-acquisition count is greater than zero, teardown fails with an
error naming that count and the clone database name and issues no
`DROP DATABASE` (the clone is left intact); if the count is zero, teardown
closes the pool, issues `DROP DATABASE` on the clone, and reports any drop
error. -/
theorem C2_teardown_leak_gate (acquiredConns : Int) (dbName : String)
    (dropRes : Option Nat) :
    (0 < acquiredConns →
      cleanFn acquiredConns dbName dropRes =
        [.fatalTest (leakMsg acquiredConns dbName)] ∧
      ∀ q, Eff.ddl q ∉ cleanFn acquiredConns dbName dropRes) ∧
    (acquiredConns = 0 →
      cleanFn acquiredConns dbName dropRes =
        [.closePool, .ddl (dropDBQuery dbName)] ++
          (dropRes.map fun e => Eff.errorTest (dropFailMsg dbName e)).toList) := by
  constructor
  · intro h
    constructor
    · simp [cleanFn, h]
    · intro q
      simp [cleanFn, h]
  · intro h
    subst h
    cases dropRes <;> simp [cleanFn]

theorem C2_teardown_leak_gate_witness :
    ((0 : Int) < 1 ∧
      cleanFn 1 "db1" (some 3) = [.fatalTest (leakMsg 1 "db1")] ∧
      ∀ q, Eff.ddl q ∉ cleanFn 1 "db1" (some 3)) ∧
    cleanFn 0 "db1" (some 3) =
      [.closePool, .ddl (dropDBQuery "db1")] ++
        (((some 3 : Option Nat)).map fun e => Eff.errorTest (dropFailMsg "db1" e)).toList :=
  ⟨⟨by decide, (C2_teardown_leak_gate 1 "db1" (some 3)).1 (by decide)⟩,
   (C2_teardown_leak_gate 0 "db1" (some 3)).2 rfl⟩

/-- **C9 counterexample.** The closure returned by `WithEmpty` keeps no
state, so invoking it a second time after the first invocation dropped
the clone (acquired count `0`; the `DROP DATABASE` now fails because the
clone is gone) *re-attempts the drop* — `Eff.ddl (dropDBQuery _)` is in
the second invocation's trace — and reports the failure, refuting
"safe and does not re-attempt the drop". -/
theorem C9_counterexample :
    Eff.ddl (dropDBQuery "dbtestpg_1") ∈ cleanFn 0 "dbtestpg_1" (some 1) ∧
    Eff.errorTest (dropFailMsg "dbtestpg_1" 1) ∈ cleanFn 0 "dbtestpg_1" (some 1) := by
  constructor <;> simp [cleanFn]

/-- **C9 amended.** Invoking the teardown closure a second time after a
successful drop re-runs the whole teardown: it closes the pool again,
re-issues `DROP DATABASE` on the clone, and reports the resulting drop
failure as a non-fatal test error (teardown is not idempotent at the call
site). -/
theorem C9_teardown_not_idempotent (dbName : String) (e : Nat) :
    cleanFn 0 dbName (some e) =
      [.closePool, .ddl (dropDBQuery dbName), .errorTest (dropFailMsg dbName e)] := by
  simp [cleanFn]

/-- **C8.** During clone creation, every failure after the
`CREATE DATABASE ... WITH TEMPLATE` step succeeded — pool-config parsing
failure, or failure to open the clone-scoped pool — leads to a
best-effort `DROP DATABASE` of the just-created clone before the error is
surfaced (the drop appears in the trace before the fatal report). -/
theorem C8_clone_cleanup (tmpl : String) (rndVal : Nat) (e : Nat)
    (connectRes : Option Nat) :
    createRndDB tmpl rndVal none (some e) connectRes =
      ([.ddl (createDBQuery (tmpl ++ "_" ++ toString rndVal) tmpl),
        .ddl (dropDBQuery (tmpl ++ "_" ++ toString rndVal)),
        .fatalErr (.sql e)], none) ∧
    createRndDB tmpl rndVal none none (some e) =
      ([.ddl (createDBQuery (tmpl ++ "_" ++ toString rndVal) tmpl),
        .openPool (tmpl ++ "_" ++ toString rndVal),
        .ddl (dropDBQuery (tmpl ++ "_" ++ toString rndVal)),
        .fatalTest ""], none) :=
  ⟨rfl, rfl⟩

/-- **C5.** If the template database is newly created (schema file set and
readable, existence check negative, `CREATE DATABASE` succeeded) but the
subsequent schema application fails, `createTemplateDB` drops the
partially initialized template database and returns the error. -/
theorem C5_template_cleanup (env : TmplEnv) (s : List Nat) (e : Nat)
    (hsf : env.schemaFile ≠ "") (hrf : env.readFile = .ok s)
    (hex : env.existsRes = .ok false) (hcr : env.createRes = none)
    (hap : env.applyRes = some e) :
    createTemplateDB env =
      ([.existsCheck (templateName env.baseName s),
        .ddl ("CREATE DATABASE " ++ quote (templateName env.baseName s)),
        .applySchema (templateName env.baseName s),
        .ddl (dropDBQuery (templateName env.baseName s))],
       .error (.sql e)) := by
  simp [createTemplateDB, hsf, hrf, hex, hcr, hap]

/-- Concrete environment for the C5 witness: template freshly created,
schema application fails with error `2`. -/
def envC5 : TmplEnv :=
  { schemaFile := "schema.sql", baseName := "t", readFile := .ok [],
    existsRes := .ok false, createRes := none, applyRes := some 2,
    dropRes := none }

theorem C5_template_cleanup_witness :
    createTemplateDB envC5 =
      ([.existsCheck (templateName "t" []),
        .ddl ("CREATE DATABASE " ++ quote (templateName "t" [])),
        .applySchema (templateName "t" []),
        .ddl (dropDBQuery (templateName "t" []))],
       .error (.sql 2)) :=
  C5_template_cleanup envC5 [] 2 (by decide) rfl rfl rfl rfl

/-- **C6 amended.** Template creation fails with a configuration-class
error (`SchemaFile is empty` / wrapped read error) exactly when the
schema source is unset or unreadable.  An absent base name is *not* an
error: it defaults to `dbtestpg` (see the counterexample). -/
theorem C6_config_error_iff (env : TmplEnv) :
    (∃ er, (createTemplateDB env).2 = .error er ∧ er.isConfig = true) ↔
      (env.schemaFile = "" ∨ ∃ e, env.readFile = .error e) := by
  obtain ⟨sf, bn, rf, ex, cr, ap, dr⟩ := env
  by_cases hsf : sf = ""
  · simp [createTemplateDB, hsf, Err.isConfig]
  · cases rf with
    | error e => simp [createTemplateDB, hsf, Err.isConfig]
    | ok s =>
      cases ex with
      | error e => simp [createTemplateDB, hsf, Err.isConfig]
      | ok b =>
        cases b with
        | false =>
          cases cr with
          | some e => simp [createTemplateDB, hsf, Err.isConfig]
          | none =>
            cases ap with
            | some e => simp [createTemplateDB, hsf, Err.isConfig]
            | none => simp [createTemplateDB, hsf, Err.isConfig]
        | true => simp [createTemplateDB, hsf, Err.isConfig]

/-- Concrete environment for the C6 counterexample: base name absent,
schema file set and readable (empty file), all database steps succeed. -/
def envC6 : TmplEnv :=
  { schemaFile := "schema.sql", baseName := "", readFile := .ok [],
    existsRes := .ok false, createRes := none, applyRes := none,
    dropRes := none }

/-- **C6 counterexample.** With the base name absent but the schema source
set and readable, template creation *succeeds* with a template name
(default base `dbtestpg`), refuting "fails with a configuration error
exactly when ... a required naming parameter (base name) is absent". -/
theorem C6_counterexample :
    envC6.baseName = "" ∧
    (createTemplateDB envC6).2 =
      .ok "dbtestpg_d41d8cd98f00b204e9800998ecf8427e" :=
  ⟨rfl, by decide⟩

/-- **C4 amended.** The template identity is
`baseName + "_" + hex(md5(schema))` (with base name defaulting to
`dbtestpg` when empty); for every fixed base name, identical schema
content always yields the same identity, and schema contents with
*different MD5 digests* yield different identities.  (Distinctness for
all pairs of different contents is impossible — MD5 is not injective, see
the counterexample.) -/
theorem C4_identity_content_addressed (base : String) (s1 s2 : List Nat) :
    (s1 = s2 → templateName base s1 = templateName base s2) ∧
    (md5 s1 ≠ md5 s2 → templateName base s1 ≠ templateName base s2) := by
  constructor
  · intro h
    rw [h]
  · intro hmd heq
    exact hmd (templateName_eq_digest heq)

theorem C4_identity_content_addressed_witness :
    templateName "t" [] = templateName "t" [] ∧
    templateName "t" [] ≠ templateName "t" [0] :=
  ⟨(C4_identity_content_addressed "t" [] []).1 rfl,
   (C4_identity_content_addressed "t" [] [0]).2 (by decide)⟩

/-- **C4 counterexample.** "two different schema contents yield different
identities" is false: the identity is determined by the 16-byte MD5
digest, and MD5 maps infinitely many contents into a finite digest space,
so two distinct schema contents share one template identity. -/
theorem C4_counterexample :
    ∃ s1 s2 : List Nat, s1 ≠ s2 ∧
      templateName "dbtestpg" s1 = templateName "dbtestpg" s2 := by
  obtain ⟨s1, s2, hne, hmd⟩ := md5_not_injective
  exact ⟨s1, s2, hne, by simp [templateName, hmd]⟩

/-- **C10.** Every DDL statement the library builds splices database names
only through the identifier sanitizer `quote` (= pgx
`Identifier.Sanitize`): `createDB`'s `CREATE DATABASE` (and its
`WITH TEMPLATE` clause) and `dropDB`'s `DROP DATABASE` are exactly a
fixed keyword prefix plus `quote`-sanitized names, and for *every* name —
including names containing quotes or spaces — the sanitizer's output is a
single well-formed quoted identifier (wrapped in `"`, every interior
quote doubled). -/
theorem C10_ddl_quoting (name tmplName dbName : String) :
    createDBQuery name tmplName =
      "CREATE DATABASE " ++ quote name ++
        (if tmplName = "" then "" else " WITH TEMPLATE " ++ quote tmplName) ∧
    dropDBQuery dbName = "DROP DATABASE " ++ quote dbName ∧
    quotedIdent (quote name) = true ∧
    quotedIdent (quote tmplName) = true ∧
    quotedIdent (quote dbName) = true :=
  ⟨rfl, rfl, quote_quotedIdent name, quote_quotedIdent tmplName,
   quote_quotedIdent dbName⟩

/-- **C3.** Once a template-creation attempt on a pool has failed and the
error is cached in `p.err`, every subsequent `getTmpl` call on that pool
returns that same cached error (via `t.Fatal`), never re-attempts
creation, and leaves the cached state unchanged — for any number of later
calls, whatever outcomes creation would have had. -/
theorem C3_sticky_failure (s : PoolSt) (e : Err)
    (creates : List (Except Err String)) (h : s.err = some e) :
    runGetTmplCalls false s creates =
      (creates.map fun _ => (GetRes.fatal e, false), s) := by
  induction creates with
  | nil => simp [runGetTmplCalls]
  | cons c cs ih =>
    have h1 : getTmplCall false s c = (.fatal e, s, false) := by
      simp [getTmplCall, h]
    simp [runGetTmplCalls, h1, ih]

theorem C3_sticky_failure_witness :
    runGetTmplCalls false ⟨some (.sql 7), ""⟩ [.ok "x", .error (.sql 9)] =
      ([(GetRes.fatal (.sql 7), false), (GetRes.fatal (.sql 7), false)],
       (⟨some (.sql 7), ""⟩ : PoolSt)) :=
  C3_sticky_failure ⟨some (.sql 7), ""⟩ (.sql 7) [.ok "x", .error (.sql 9)] rfl

lemma withFixturesAux_firstFail (dbName : String) (conns : Int)
    (dropRes : Option Nat) (e : Nat) (rest : List (Option Nat)) :
    ∀ (i k : Nat),
      withFixturesAux dbName conns dropRes
          (List.replicate i none ++ some e :: rest) k =
        ((List.range (i + 1)).map (fun j => Eff.execFixture (k + j)) ++
          cleanFn conns dbName dropRes ++
          [.fatalTest (fixtureMsg (k + i) e)], false) := by
  intro i
  induction i with
  | zero =>
    intro k
    simp [withFixturesAux, List.range_succ]
  | succ m ih =>
    intro k
    rw [List.replicate_succ, List.cons_append]
    simp only [withFixturesAux]
    rw [ih (k + 1)]
    have hmap : (List.range (m + 1 + 1)).map (fun j => Eff.execFixture (k + j)) =
        Eff.execFixture k ::
          (List.range (m + 1)).map (fun j => Eff.execFixture (k + 1 + j)) := by
      rw [List.range_succ_eq_map, List.map_cons, List.map_map]
      refine congrArg₂ _ (by rw [Nat.add_zero]) (List.map_congr_left ?_)
      intro j _
      show Eff.execFixture (k + (j + 1)) = Eff.execFixture (k + 1 + j)
      congr 1
      omega
    rw [hmap]
    have hidx : k + 1 + m = k + (m + 1) := by omega
    rw [hidx]
    simp

/-- **C7.** For every fixture sequence whose first failure sits at index
`i` (with error `e`), the `WithFixtures` / `WithSQLs` loop executes
exactly fixtures `0..i` in order (no later fixture runs), invokes the
teardown closure, then reports the failing index and the error fatally;
no pool is handed back (the run aborts), and with no outstanding
acquisitions the teardown drops the clone. -/
theorem C7_fixtures_abort (dbName : String) (conns : Int) (dropRes : Option Nat)
    (i e : Nat) (rest : List (Option Nat)) :
    withFixtures dbName conns dropRes (List.replicate i none ++ some e :: rest) =
      ((List.range (i + 1)).map Eff.execFixture ++
        cleanFn conns dbName dropRes ++ [.fatalTest (fixtureMsg i e)], false) ∧
    (conns = 0 → Eff.ddl (dropDBQuery dbName) ∈
      (withFixtures dbName conns dropRes
        (List.replicate i none ++ some e :: rest)).1) := by
  have h := withFixturesAux_firstFail dbName conns dropRes e rest i 0
  constructor
  · rw [withFixtures, h]
    simp
  · intro h0
    rw [withFixtures, h]
    subst h0
    simp [cleanFn]

theorem C7_fixtures_abort_witness :
    withFixtures "tmpl_1" 0 none [none, some 5] =
      ((List.range 2).map Eff.execFixture ++ cleanFn 0 "tmpl_1" none ++
        [.fatalTest (fixtureMsg 1 5)], false) ∧
    Eff.ddl (dropDBQuery "tmpl_1") ∈
      (withFixtures "tmpl_1" 0 none [none, some 5]).1 :=
  ⟨(C7_fixtures_abort "tmpl_1" 0 none 1 5 []).1,
   (C7_fixtures_abort "tmpl_1" 0 none 1 5 []).2 rfl⟩

/-- **C1 amended.** For `N ≥ 1` concurrent first-time callers of `getTmpl`
on one freshly constructed pool (template initially absent, every
database operation succeeding): once all callers have returned, exactly
one `CREATE DATABASE` and one schema application have run — but not
necessarily exactly one existence check: each caller blocked on the
exclusive lock re-runs `createTemplateDB` (`getTmpl` does not re-check
the cache after `p.m.Lock()`), so between `1` and `N` existence checks
run; the re-runs find the template present and skip the work. -/
theorem C1_at_most_once_create (n : Nat) (s : TState)
    (hr : TReach (initT (n + 1)) s) (hd : allDoneT s) :
    s.creates = 1 ∧ s.applies = 1 ∧ 1 ≤ s.existsChecks ∧
      s.existsChecks ≤ n + 1 := by
  have hinv := tinv_reach hr
  obtain ⟨h1, h2, h3, h4, h5, h6, h7⟩ := hinv
  obtain ⟨hs, hl, hc⟩ := hd
  have hdone : 0 < s.nDone := by omega
  have hdb : s.dbExists = true := h5 hdone
  rw [hdb] at h3
  simp only [if_true, ite_true] at h3
  exact ⟨h3, h4.trans h3, by omega, by omega⟩

/-- Intermediate states of the single-caller witness trace. -/
def tsB : TState := ⟨0, 1, 0, 0, false, false, false, 0, 0, 0⟩

/-- See `tsB`. -/
def tsC : TState := ⟨0, 0, 1, 0, true, false, false, 0, 0, 0⟩

/-- See `tsB`. -/
def tsD : TState := ⟨0, 0, 0, 1, false, true, true, 1, 1, 1⟩

theorem C1_at_most_once_create_witness :
    TReach (initT 1) tsD ∧ allDoneT tsD ∧
      (tsD.creates = 1 ∧ tsD.applies = 1 ∧ 1 ≤ tsD.existsChecks ∧
        tsD.existsChecks ≤ 1) := by
  have h1 : TStep (initT 1) tsB := TStep.readMiss (initT 1) (by decide) rfl rfl
  have h2 : TStep tsB tsC := TStep.lock tsB (by decide) rfl
  have h3 : TStep tsC tsD := TStep.create tsC (by decide)
  have hr : TReach (initT 1) tsD :=
    Relation.ReflTransGen.head h1
      (Relation.ReflTransGen.head h2 (Relation.ReflTransGen.single h3))
  exact ⟨hr, ⟨rfl, rfl, rfl⟩, C1_at_most_once_create 0 tsD hr ⟨rfl, rfl, rfl⟩⟩

/-- Intermediate states of the two-caller counterexample trace: both
callers pass the read phase before either acquires the write lock. -/
def csA : TState := ⟨1, 1, 0, 0, false, false, false, 0, 0, 0⟩

/-- See `csA`. -/
def csB : TState := ⟨0, 2, 0, 0, false, false, false, 0, 0, 0⟩

/-- See `csA`. -/
def csC : TState := ⟨0, 1, 1, 0, true, false, false, 0, 0, 0⟩

/-- See `csA`. -/
def csD : TState := ⟨0, 1, 0, 1, false, true, true, 1, 1, 1⟩

/-- See `csA`. -/
def csE : TState := ⟨0, 0, 1, 1, true, true, true, 1, 1, 1⟩

/-- See `csA`. -/
def csF : TState := ⟨0, 0, 0, 2, false, true, true, 2, 1, 1⟩

/-- **C1 counterexample.** Two concurrent first-time callers can both pass
the read phase before either takes the write lock; since `getTmpl` does
not re-check the cached state after `p.m.Lock()`, the second caller
re-runs `createTemplateDB`, and the run ends with **two** existence
checks — refuting "exactly one template-creation sequence runs (one
existence check, ...)" and "callers that were blocked on the exclusive
lock observe the cached result without repeating the work". -/
theorem C1_counterexample :
    TReach (initT 2) csF ∧ allDoneT csF ∧ csF.existsChecks = 2 := by
  have h1 : TStep (initT 2) csA := TStep.readMiss (initT 2) (by decide) rfl rfl
  have h2 : TStep csA csB := TStep.readMiss csA (by decide) rfl rfl
  have h3 : TStep csB csC := TStep.lock csB (by decide) rfl
  have h4 : TStep csC csD := TStep.create csC (by decide)
  have h5 : TStep csD csE := TStep.lock csD (by decide) rfl
  have h6 : TStep csE csF := TStep.create csE (by decide)
  refine ⟨?_, ⟨rfl, rfl, rfl⟩, rfl⟩
  exact Relation.ReflTransGen.head h1
    (Relation.ReflTransGen.head h2
      (Relation.ReflTransGen.head h3
        (Relation.ReflTransGen.head h4
          (Relation.ReflTransGen.head h5 (Relation.ReflTransGen.single h6)))))

end GoTestPg
